import Mathlib

/-!
Verification of the benchmark orchestration and telemetry layer of the
polars benchmark program (src/main.rs and src/updated.rs).

The two Rust files share the same `time_operation` trial runner and the same
four-stage pipeline (CSV load, sort by "value", filter value > 500,
group-by "category" with mean aggregation), run once stage-by-stage
("forced" mode, 3 trials per stage) and once as a single composed lazy plan
(5 trials).  They differ only in the memory-telemetry provider:
main.rs reads one counter (`get_ram_usage_mb`), updated.rs reads four
(`get_memory_metrics`).

Modelling conventions:
* Rust `Duration` values are modelled as `Nat` nanosecond counts; `Duration`
  is unsigned and `Duration / u32` floors, exactly as `Nat` division does.
* A Rust panic (`expect`, `unwrap`, division by zero) aborts the caller, so
  it is embedded as an `Except.error` outcome carrying the panic kind.
* The operation passed to `time_operation` is modelled as a function from
  the invocation index to the invocation's outcome, and the wall clock as a
  function from the invocation index to that call's measured duration; this
  is the fake-clock injection the specification describes.
-/

namespace Bench

/-- Abnormal outcomes of `time_operation` (src/main.rs lines 37-55,
src/updated.rs lines 67-85), each modelling one way the Rust function can
abort, plus the specification's `ConfigurationError`:
* `operationFailed e` — the `operation().expect("Operation failed")` panic
  raised when an invocation returns an error `e`;
* `divideByZero` — the `Duration / 0` panic raised by
  `durations.iter().sum::<Duration>() / trials as u32` when `trials = 0`;
* `unwrapNone` — the `result.unwrap()` panic on a `None` result;
* `configurationError` — the error the specification's error taxonomy says
  a `trialCount < 1` call must be rejected with.  The source never raises
  it; the constructor exists so that claims about it can be stated. -/
inductive RunError (E : Type) where
  | operationFailed (e : E)
  | divideByZero
  | unwrapNone
  | configurationError
deriving DecidableEq

/-- Outcome of the `for _ in 0..trials` loop of `time_operation`: either the
loop finished, carrying the recorded durations, the retained last result and
the number of calls made, or some invocation failed, carrying the error and
the number of calls made (the failing call included). -/
inductive LoopResult (E T : Type) where
  | ok (durs : List Nat) (res : Option T) (calls : Nat)
  | fail (e : E) (calls : Nat)
deriving DecidableEq

/-- The trial loop of `time_operation` (src/main.rs lines 44-49,
src/updated.rs lines 74-79).  `i` is the index of the next invocation,
`remaining` the number of iterations left, `durs` the durations pushed so
far, `res` the retained result so far.  Each iteration invokes the
operation; on failure the loop aborts at once, otherwise it pushes this
call's measured duration and overwrites `res` with the new result. -/
def trialLoop (op : Nat → Except E T) (dur : Nat → Nat) :
    Nat → Nat → List Nat → Option T → LoopResult E T
  | i, 0, durs, res => .ok durs res i
  | i, remaining + 1, durs, _res =>
    match op i with
    | .error e => .fail e (i + 1)
    | .ok t => trialLoop op dur (i + 1) remaining (durs ++ [dur i]) (some t)

/-- The function `time_operation` (src/main.rs lines 37-55, src/updated.rs lines 67-85):
runs the trial loop from invocation 0; on a failed invocation the `expect`
panic aborts with the underlying error; otherwise the average duration is
the duration sum divided by `trials` (`Duration / u32`, flooring, a
divide-by-zero panic when `trials = 0`), and the retained last result is
unwrapped.  Returns the pair `(result, avg_duration)`. -/
def time_operation (op : Nat → Except E T) (dur : Nat → Nat) (trials : Nat) :
    Except (RunError E) (T × Nat) :=
  match trialLoop op dur 0 trials [] none with
  | .fail e _ => .error (.operationFailed e)
  | .ok durs res _ =>
    if trials = 0 then .error .divideByZero
    else
      match res with
      | some t => .ok (t, durs.sum / trials)
      | none => .error .unwrapNone

/-- The number of invocations of the operation a `time_operation` call
performs, read off the same trial loop. -/
def time_operation_calls (op : Nat → Except E T) (dur : Nat → Nat)
    (trials : Nat) : Nat :=
  match trialLoop op dur 0 trials [] none with
  | .fail _ calls => calls
  | .ok _ _ calls => calls

/-- The OS memory-counters record of main.rs (`PROCESS_MEMORY_COUNTERS`);
only the `WorkingSetSize` field is read by the program.  Byte counts are
unsigned, modelled as `Nat`. -/
structure PROCESS_MEMORY_COUNTERS where
  WorkingSetSize : Nat
deriving DecidableEq

/-- The extended OS memory-counters record of updated.rs
(`PROCESS_MEMORY_COUNTERS_EX`), restricted to the four fields the program
reads.  Byte counts are unsigned, modelled as `Nat`. -/
structure PROCESS_MEMORY_COUNTERS_EX where
  WorkingSetSize : Nat
  PrivateUsage : Nat
  PagefileUsage : Nat
  PeakWorkingSetSize : Nat
deriving DecidableEq

/-- `MemoryMetrics` (src/updated.rs lines 11-17): the four per-process
memory counters in megabytes.  Fields are Rust `u64`, modelled as `Nat`. -/
structure MemoryMetrics where
  working_set_mb : Nat
  private_usage_mb : Nat
  pagefile_usage_mb : Nat
  peak_working_set_mb : Nat
deriving DecidableEq

/-- The function `get_memory_metrics` (src/updated.rs lines 20-47).  The
`K32GetProcessMemoryInfo` call either fills the whole counters record or
fails; its outcome is the `Option` argument.  On success every field is the
byte counter divided by 1024 and again by 1024; on failure every field is
zero and no error is raised. -/
def get_memory_metrics (query : Option PROCESS_MEMORY_COUNTERS_EX) :
    MemoryMetrics :=
  match query with
  | some mem_counters =>
    { working_set_mb := mem_counters.WorkingSetSize / 1024 / 1024
      private_usage_mb := mem_counters.PrivateUsage / 1024 / 1024
      pagefile_usage_mb := mem_counters.PagefileUsage / 1024 / 1024
      peak_working_set_mb := mem_counters.PeakWorkingSetSize / 1024 / 1024 }
  | none =>
    { working_set_mb := 0
      private_usage_mb := 0
      pagefile_usage_mb := 0
      peak_working_set_mb := 0 }

/-- The function `get_ram_usage_mb` (src/main.rs lines 12-28): the working-set counter
in megabytes on a successful OS query, 0 on a failed one. -/
def get_ram_usage_mb (query : Option PROCESS_MEMORY_COUNTERS) : Nat :=
  match query with
  | some mem_counters => mem_counters.WorkingSetSize / 1024 / 1024
  | none => 0

/-- One row of the benchmark dataset `data.csv` (columns `id`, `category`,
`value`; src/main.rs lines 67-76).  The generated `value` column is a
floating-point number; it is modelled as a rational so that the mean
aggregate is exact. -/
structure Row where
  id : Int
  category : String
  value : ℚ
deriving DecidableEq

/-- A materialized polars `DataFrame` of the benchmark's schema: the
concrete list of rows. -/
abbrev DataFrame := List Row

/-- Rust `DataFrame::clone` (the `df.clone()` of every forced stage):
produces a value-equal copy of the frame, leaving the original intact. -/
def DataFrame.clone (df : DataFrame) : DataFrame := df

/-- The materialized result of
`LazyCsvReader::new("data.csv").with_has_header(true).finish()?.collect()`
(src/main.rs lines 87-91): parsing the generated file recovers exactly the
rows that were written, so the load stage materializes the source rows. -/
def loadCsv (src : List Row) : DataFrame := src

/-- Stable insertion of a row into a list sorted by ascending `value`, the
comparison polars `sort(["value"], Default::default())` uses. -/
def insertByValue (r : Row) : List Row → List Row
  | [] => [r]
  | x :: xs => if r.value < x.value then r :: x :: xs else x :: insertByValue r xs

/-- The sort stage `df.clone().lazy().sort(["value"], Default::default())`
(src/main.rs lines 100-102): sorts the frame by ascending `value`. -/
def sortByValue (df : DataFrame) : DataFrame :=
  df.foldr insertByValue []

/-- The filter stage `filter(col("value").gt(lit(500.0)))`
(src/main.rs lines 113-115): keeps the rows whose `value` exceeds 500. -/
def filterValueGt500 (df : DataFrame) : DataFrame :=
  df.filter (fun r => 500 < r.value)

/-- One row of the aggregated result frame produced by
`group_by([col("category")]).agg([col("id").mean().alias("id_mean"),
col("value").mean().alias("value_mean")])` (src/main.rs lines 126-131). -/
structure AggRow where
  category : String
  id_mean : ℚ
  value_mean : ℚ
deriving DecidableEq

/-- The aggregated result frame. -/
abbrev AggDataFrame := List AggRow

/-- Arithmetic mean of a list of rationals, polars' `mean` reduction. -/
def qmean (xs : List ℚ) : ℚ := xs.sum / xs.length

/-- The group-by-and-aggregate stage (src/main.rs lines 124-136): one
output row per distinct `category`, carrying the mean of `id` and the mean
of `value` over that category's rows. -/
def groupByAgg (df : DataFrame) : AggDataFrame :=
  ((df.map Row.category).dedup).map fun c =>
    let grp := df.filter (fun r => r.category = c)
    { category := c
      id_mean := qmean (grp.map fun r => (r.id : ℚ))
      value_mean := qmean (grp.map Row.value) }

/-- A lazy polars frame plan over the benchmark schema, before the
aggregation step: the chain built from `LazyCsvReader...finish()` by
`.sort(["value"], ...)` and `.filter(col("value").gt(lit(500.0)))`. -/
inductive FramePlan where
  | load
  | sortValue (p : FramePlan)
  | filterGt500 (p : FramePlan)
deriving DecidableEq

/-- A lazy plan ending in the group-by aggregation. -/
inductive AggPlan where
  | groupByCategoryAgg (p : FramePlan)
deriving DecidableEq

/-- Executing `collect()` on a lazy frame plan: executes the composed plan against
the dataset source and materializes the result. -/
def FramePlan.collect (src : List Row) : FramePlan → DataFrame
  | .load => loadCsv src
  | .sortValue p => sortByValue (p.collect src)
  | .filterGt500 p => filterValueGt500 (p.collect src)

/-- Executing `collect()` on the full lazy pipeline. -/
def AggPlan.collect (src : List Row) : AggPlan → AggDataFrame
  | .groupByCategoryAgg p => groupByAgg (p.collect src)

/-- The composed `lazy_pipeline` of src/main.rs lines 143-152: load, then
sort by `value`, then filter `value > 500`, then group by `category` with
the two mean aggregates. -/
def lazy_pipeline : AggPlan :=
  .groupByCategoryAgg (.filterGt500 (.sortValue .load))

/-- Externally observable steps of `main` (src/main.rs lines 57-178,
src/updated.rs lines 87-216), in program order:
* `csvGenerated` — the synthetic `data.csv` has been written;
* `trialRun name trials` — a `time_operation(_, trials, name)` call
  completed all its trials;
* `memSample stage` — a memory-telemetry sample was taken
  (`print_ram` / `print_memory_detailed`, both query the provider once);
* `describePlan` — `lazy_pipeline.describe_optimized_plan()` was printed. -/
inductive Event where
  | csvGenerated
  | trialRun (name : String) (trials : Nat)
  | memSample (stage : String)
  | describePlan
deriving DecidableEq

/-- The function `main` (src/main.rs lines 57-178): generates the CSV, runs the four
forced stages — each timed by `time_operation` with 3 trials over a closure
that clones the held frame, the held frame being replaced by the returned
result, with a memory sample after each stage — prints the optimized plan,
then times the composed lazy pipeline with 5 trials and samples memory once
after it.  Returns the forced-mode final frame, the lazy-mode final frame,
and the ordered trace of observable steps; a panic anywhere aborts the
whole run. -/
def mainRun (src : List Row) (dur : Nat → Nat) :
    Except (RunError Empty) (AggDataFrame × AggDataFrame × List Event) := do
  let t0 : List Event := [.csvGenerated, .memSample "CSV Generation"]
  let (df, _) ← time_operation (fun _ => .ok (loadCsv src)) dur 3
  let t1 := t0 ++ [.trialRun "CSV Read & Load" 3, .memSample "CSV Read & Load"]
  let (df, _) ← time_operation (fun _ => .ok (sortByValue df.clone)) dur 3
  let t2 := t1 ++ [.trialRun "Sort" 3, .memSample "Sort"]
  let (df, _) ← time_operation (fun _ => .ok (filterValueGt500 df.clone)) dur 3
  let t3 := t2 ++ [.trialRun "Filter" 3, .memSample "Filter"]
  let (df, _) ← time_operation (fun _ => .ok (groupByAgg df.clone)) dur 3
  let t4 := t3 ++ [.trialRun "GroupBy + Aggregate" 3, .memSample "GroupBy + Aggregate"]
  let t5 := t4 ++ [.describePlan]
  let (lazy_result, _) ← time_operation (fun _ => .ok (lazy_pipeline.collect src)) dur 5
  let t6 := t5 ++ [.trialRun "Full Lazy Pipeline" 5, .memSample "Full Lazy Pipeline"]
  return (df, lazy_result, t6)

/-- The trace `main` produces when every stage succeeds, written out. -/
def mainTrace : List Event :=
  [.csvGenerated, .memSample "CSV Generation",
   .trialRun "CSV Read & Load" 3, .memSample "CSV Read & Load",
   .trialRun "Sort" 3, .memSample "Sort",
   .trialRun "Filter" 3, .memSample "Filter",
   .trialRun "GroupBy + Aggregate" 3, .memSample "GroupBy + Aggregate",
   .describePlan,
   .trialRun "Full Lazy Pipeline" 5, .memSample "Full Lazy Pipeline"]

/-- The `(name, trials)` pairs of the `time_operation` calls in a trace, in
order. -/
def trialEvents (tr : List Event) : List (String × Nat) :=
  tr.filterMap fun e =>
    match e with
    | .trialRun name trials => some (name, trials)
    | _ => none

/-- Returns `true` when every completed `time_operation` call in the trace is
immediately followed by a memory sample for the same stage. -/
def trialsSampled : List Event → Bool
  | [] => true
  | .trialRun name _ :: rest =>
    match rest with
    | .memSample stage :: _ => name = stage && trialsSampled rest
    | _ => false
  | _ :: rest => trialsSampled rest

/-- The forced-stage pattern of `main`: the trial loop of
`time_operation(|| df.clone().lazy().OP().collect(), trials, _)`, recording
the frame each trial's closure receives.  `df` is the frame variable `main`
holds (the previous stage's materialized output); every iteration clones it
and applies the stage operation; `res` is the value that will replace the
held frame once the loop has returned; `inputs` collects each trial's input
frame. -/
def stageLoop (df : DataFrame) (op : DataFrame → DataFrame) :
    Nat → Option DataFrame → List DataFrame →
    Option DataFrame × List DataFrame
  | 0, res, inputs => (res, inputs)
  | remaining + 1, _res, inputs =>
    let input := df.clone
    stageLoop df op remaining (some (op input)) (inputs ++ [input])

/-- The five-row dataset of the end-to-end scenario: `category` values
A, A, B, B, B and `value` values 100, 600, 200, 700, 900. -/
def sampleRows : List Row :=
  [⟨0, "A", 100⟩, ⟨1, "A", 600⟩, ⟨2, "B", 200⟩, ⟨3, "B", 700⟩, ⟨4, "B", 900⟩]

/-- When every invocation from `i` on succeeds, the trial loop records the
durations of calls `i, i+1, ..., i+r-1` in order, retains the result of the
last call, and makes exactly `r` further calls. -/
theorem trialLoop_all_ok (op : Nat → Except E T) (f : Nat → T) (dur : Nat → Nat) :
    ∀ (r i : Nat) (durs : List Nat) (res : Option T),
      (∀ j, j < r → op (i + j) = .ok (f (i + j))) →
      trialLoop op dur i r durs res =
        .ok (durs ++ (List.range' i r).map dur)
            (if r = 0 then res else some (f (i + r - 1)))
            (i + r) := by
  intro r
  induction r with
  | zero =>
    intro i durs res _h
    simp [trialLoop]
  | succ s ih =>
    intro i durs res h
    have h0 : op i = .ok (f i) := by simpa using h 0 (Nat.succ_pos s)
    have h1 : ∀ j, j < s → op (i + 1 + j) = .ok (f (i + 1 + j)) := by
      intro j hj
      have e : i + 1 + j = i + (j + 1) := by omega
      rw [e]
      exact h (j + 1) (by omega)
    simp only [trialLoop, h0]
    rw [ih (i + 1) (durs ++ [dur i]) (some (f i)) h1]
    have hd : (durs ++ [dur i]) ++ (List.range' (i + 1) s).map dur =
        durs ++ (List.range' i (s + 1)).map dur := by
      rw [List.append_assoc, List.range'_succ, List.map_cons, List.singleton_append]
    have hr : (if s = 0 then some (f i) else some (f (i + 1 + s - 1))) =
        some (f (i + (s + 1) - 1)) := by
      cases s with
      | zero => simp
      | succ t =>
        have e : i + 1 + (t + 1) - 1 = i + (t + 1 + 1) - 1 := by omega
        simp [e]
    have hc : i + 1 + s = i + (s + 1) := by omega
    rw [hd, hr, hc]
    simp

/-- When the first `k` invocations from `i` on succeed and invocation
`i + k` fails with `e`, the trial loop aborts at once after `k + 1` further
calls. -/
theorem trialLoop_fail (op : Nat → Except E T) (f : Nat → T) (dur : Nat → Nat) (e : E) :
    ∀ (k i r : Nat) (durs : List Nat) (res : Option T),
      k < r →
      (∀ j, j < k → op (i + j) = .ok (f (i + j))) →
      op (i + k) = .error e →
      trialLoop op dur i r durs res = .fail e (i + k + 1) := by
  intro k
  induction k with
  | zero =>
    intro i r durs res hk _h herr
    obtain ⟨s, rfl⟩ : ∃ s, r = s + 1 := ⟨r - 1, by omega⟩
    have h0 : op i = .error e := by simpa using herr
    simp [trialLoop, h0]
  | succ t ih =>
    intro i r durs res hk h herr
    obtain ⟨s, rfl⟩ : ∃ s, r = s + 1 := ⟨r - 1, by omega⟩
    have h0 : op i = .ok (f i) := by simpa using h 0 (Nat.succ_pos t)
    simp only [trialLoop, h0]
    have step := ih (i + 1) s (durs ++ [dur i]) (some (f i)) (by omega)
      (by
        intro j hj
        have e1 : i + 1 + j = i + (j + 1) := by omega
        rw [e1]
        exact h (j + 1) (by omega))
      (by
        have e2 : i + 1 + t = i + (t + 1) := by omega
        rw [e2]
        exact herr)
    rw [step]
    have e3 : i + 1 + t + 1 = i + (t + 1) + 1 := by omega
    rw [e3]

/-- Running `time_operation` on an all-successful deterministic operation: it
returns the last invocation's result paired with the floor of the duration
sum divided by the trial count, and it calls the operation exactly
`trials` times. -/
theorem time_operation_all_ok (op : Nat → Except E T) (f : Nat → T) (dur : Nat → Nat)
    (trials : Nat) (ht : 1 ≤ trials) (h : ∀ j, j < trials → op j = .ok (f j)) :
    time_operation op dur trials =
      .ok (f (trials - 1), ((List.range trials).map dur).sum / trials) ∧
    time_operation_calls op dur trials = trials := by
  have hl := trialLoop_all_ok op f dur trials 0 [] none
    (by intro j hj; simpa using h j hj)
  have hnz : ¬ trials = 0 := by omega
  constructor
  · simp only [time_operation, hl, hnz, if_false]
    simp [List.range_eq_range']
  · simp only [time_operation_calls, hl]
    omega

/-- C1: for every `trials >= 1` and every deterministic operation that
succeeds on all invocations, `time_operation` returns an average duration
that is non-negative and equal to the arithmetic mean of the `trials`
per-invocation durations, the division rounding by floor. -/
theorem time_operation_average_correct (op : Nat → Except E T) (f : Nat → T)
    (dur : Nat → Nat) (trials : Nat) (ht : 1 ≤ trials)
    (h : ∀ j, j < trials → op j = .ok (f j)) :
    ∃ t avg, time_operation op dur trials = .ok (t, avg) ∧
      avg = ((List.range trials).map dur).sum / trials ∧ 0 ≤ avg :=
  ⟨f (trials - 1), ((List.range trials).map dur).sum / trials,
   (time_operation_all_ok op f dur trials ht h).1, rfl, Nat.zero_le _⟩

/-- Witness for C1: three trials of an operation that always returns 7
with injected durations 1, 2, 3 nanoseconds. -/
theorem time_operation_average_correct_witness :
    ∃ t avg,
      time_operation (fun _ : Nat => (Except.ok 7 : Except Unit Nat))
        (fun i => i + 1) 3 = .ok (t, avg) ∧
      avg = ((List.range 3).map (fun i => i + 1)).sum / 3 ∧ 0 ≤ avg :=
  time_operation_average_correct (fun _ => Except.ok 7) (fun _ => 7)
    (fun i => i + 1) 3 (by decide) (fun _ _ => rfl)

/-- C7: for every operation that succeeds on all invocations and every
`trials >= 1`, `time_operation` invokes the operation exactly `trials`
times and the value it returns is the result of the last invocation. -/
theorem time_operation_count_and_last_result (op : Nat → Except E T) (f : Nat → T)
    (dur : Nat → Nat) (trials : Nat) (ht : 1 ≤ trials)
    (h : ∀ j, j < trials → op j = .ok (f j)) :
    time_operation_calls op dur trials = trials ∧
    ∃ avg, time_operation op dur trials = .ok (f (trials - 1), avg) :=
  ⟨(time_operation_all_ok op f dur trials ht h).2,
   ((List.range trials).map dur).sum / trials,
   (time_operation_all_ok op f dur trials ht h).1⟩

/-- Witness for C7: three trials of the operation returning its invocation
index; the retained result is that of invocation 2, the last one. -/
theorem time_operation_count_and_last_result_witness :
    time_operation_calls (fun i : Nat => (Except.ok i : Except Unit Nat))
      (fun _ => 5) 3 = 3 ∧
    ∃ avg, time_operation (fun i : Nat => (Except.ok i : Except Unit Nat))
      (fun _ => 5) 3 = .ok (2, avg) :=
  time_operation_count_and_last_result (fun i => Except.ok i) (fun i => i)
    (fun _ => 5) 3 (by decide) (fun _ _ => rfl)

/-- C2: if invocation `k < trials` of the operation fails, `time_operation`
aborts at once — no retry, no remaining trials — surfacing the underlying
error, computing no average, with a total observed call count of
`k + 1 <= trials`. -/
theorem time_operation_fail_fast (op : Nat → Except E T) (f : Nat → T)
    (dur : Nat → Nat) (trials k : Nat) (e : E) (hk : k < trials)
    (hok : ∀ j, j < k → op j = .ok (f j)) (herr : op k = .error e) :
    time_operation op dur trials = .error (.operationFailed e) ∧
    time_operation_calls op dur trials = k + 1 ∧
    k + 1 ≤ trials := by
  have hl := trialLoop_fail op f dur e k 0 trials [] none hk
    (by intro j hj; simpa using hok j hj) (by simpa using herr)
  refine ⟨?_, ?_, by omega⟩
  · simp only [time_operation, hl]
  · simp only [time_operation_calls, hl]
    omega

/-- Witness for C2: the operation fails on its second invocation (index 1)
out of 3 trials; the runner stops after 2 calls and returns the error. -/
theorem time_operation_fail_fast_witness :
    time_operation
      (fun i : Nat => if i = 1 then (Except.error () : Except Unit Nat) else .ok 0)
      (fun _ => 5) 3 = .error (.operationFailed ()) ∧
    time_operation_calls
      (fun i : Nat => if i = 1 then (Except.error () : Except Unit Nat) else .ok 0)
      (fun _ => 5) 3 = 2 ∧
    1 + 1 ≤ 3 :=
  time_operation_fail_fast
    (fun i => if i = 1 then Except.error () else .ok 0) (fun _ => 0)
    (fun _ => 5) 3 1 () (by decide)
    (by
      intro j hj
      have hj0 : j = 0 := by omega
      subst hj0
      rfl)
    rfl

/-- C3 counterexample: called with `trials = 0`, `time_operation` is not
rejected with the specification's `ConfigurationError`; it fails with the
divide-by-zero panic of the average computation, after the (empty) trial
loop, having invoked the operation 0 times. -/
theorem time_operation_zero_trials_not_config_error :
    time_operation (fun _ : Nat => (Except.ok 0 : Except Unit Nat)) (fun _ => 0) 0 =
      .error .divideByZero ∧
    time_operation (fun _ : Nat => (Except.ok 0 : Except Unit Nat)) (fun _ => 0) 0 ≠
      .error .configurationError ∧
    time_operation_calls (fun _ : Nat => (Except.ok 0 : Except Unit Nat)) (fun _ => 0) 0 = 0 := by
  refine ⟨rfl, ?_, rfl⟩
  intro hcontra
  have h2 := Except.error.inj hcontra
  exact absurd h2 (by intro h3; cases h3)

/-- C3 amended: for every call of `time_operation` with `trials = 0`, the
operation is never invoked (call count exactly 0), but the call is not
rejected beforehand with a `ConfigurationError`: it fails with the
divide-by-zero panic raised when the duration sum is divided by the zero
trial count, after the trial loop has run empty. -/
theorem time_operation_zero_trials_divide_by_zero (op : Nat → Except E T)
    (dur : Nat → Nat) :
    time_operation op dur 0 = .error .divideByZero ∧
    time_operation_calls op dur 0 = 0 :=
  ⟨rfl, rfl⟩

/-- C5: the memory-telemetry sample never fails outwardly (its return type
is a plain `MemoryMetrics`, not an error-carrying one): a failed OS query
yields the snapshot with all fields zero rather than an error, and every
field of every returned snapshot is a non-negative, fully populated
counter.  `get_ram_usage_mb` of main.rs likewise returns 0 on failure. -/
theorem get_memory_metrics_total_nonneg (query : Option PROCESS_MEMORY_COUNTERS_EX) :
    get_memory_metrics none =
      { working_set_mb := 0, private_usage_mb := 0,
        pagefile_usage_mb := 0, peak_working_set_mb := 0 } ∧
    0 ≤ (get_memory_metrics query).working_set_mb ∧
    0 ≤ (get_memory_metrics query).private_usage_mb ∧
    0 ≤ (get_memory_metrics query).pagefile_usage_mb ∧
    0 ≤ (get_memory_metrics query).peak_working_set_mb ∧
    get_ram_usage_mb none = 0 :=
  ⟨rfl, Nat.zero_le _, Nat.zero_le _, Nat.zero_le _, Nat.zero_le _, rfl⟩

/-- C10: every snapshot field is the corresponding OS byte counter floored
by 1024·1024 (the two successive `/ 1024` divisions), so a successful query
whose counters are all below one MiB returns the same all-zero snapshot
that signals a failed query: the two are indistinguishable at the public
interface. -/
theorem get_memory_metrics_floor_division (c : PROCESS_MEMORY_COUNTERS_EX)
    (h : c.WorkingSetSize < 1024 * 1024 ∧ c.PrivateUsage < 1024 * 1024 ∧
         c.PagefileUsage < 1024 * 1024 ∧ c.PeakWorkingSetSize < 1024 * 1024) :
    (get_memory_metrics (some c)).working_set_mb = c.WorkingSetSize / (1024 * 1024) ∧
    (get_memory_metrics (some c)).private_usage_mb = c.PrivateUsage / (1024 * 1024) ∧
    (get_memory_metrics (some c)).pagefile_usage_mb = c.PagefileUsage / (1024 * 1024) ∧
    (get_memory_metrics (some c)).peak_working_set_mb = c.PeakWorkingSetSize / (1024 * 1024) ∧
    get_memory_metrics (some c) = get_memory_metrics none := by
  obtain ⟨h1, h2, h3, h4⟩ := h
  have z1 : c.WorkingSetSize / 1024 / 1024 = 0 := by
    rw [Nat.div_div_eq_div_mul]
    exact Nat.div_eq_of_lt h1
  have z2 : c.PrivateUsage / 1024 / 1024 = 0 := by
    rw [Nat.div_div_eq_div_mul]
    exact Nat.div_eq_of_lt h2
  have z3 : c.PagefileUsage / 1024 / 1024 = 0 := by
    rw [Nat.div_div_eq_div_mul]
    exact Nat.div_eq_of_lt h3
  have z4 : c.PeakWorkingSetSize / 1024 / 1024 = 0 := by
    rw [Nat.div_div_eq_div_mul]
    exact Nat.div_eq_of_lt h4
  refine ⟨?_, ?_, ?_, ?_, ?_⟩
  · simp [get_memory_metrics, Nat.div_div_eq_div_mul]
  · simp [get_memory_metrics, Nat.div_div_eq_div_mul]
  · simp [get_memory_metrics, Nat.div_div_eq_div_mul]
  · simp [get_memory_metrics, Nat.div_div_eq_div_mul]
  · simp only [get_memory_metrics, MemoryMetrics.mk.injEq]
    exact ⟨z1, z2, z3, z4⟩

/-- Witness for C10: a successful query whose four counters (3, 1048575,
0, 42 bytes) are all under one MiB floors to the all-zero snapshot. -/
theorem get_memory_metrics_floor_division_witness :
    (get_memory_metrics (some ⟨3, 1048575, 0, 42⟩)).working_set_mb = 3 / (1024 * 1024) ∧
    (get_memory_metrics (some ⟨3, 1048575, 0, 42⟩)).private_usage_mb = 1048575 / (1024 * 1024) ∧
    (get_memory_metrics (some ⟨3, 1048575, 0, 42⟩)).pagefile_usage_mb = 0 / (1024 * 1024) ∧
    (get_memory_metrics (some ⟨3, 1048575, 0, 42⟩)).peak_working_set_mb = 42 / (1024 * 1024) ∧
    get_memory_metrics (some ⟨3, 1048575, 0, 42⟩) = get_memory_metrics none :=
  get_memory_metrics_floor_division ⟨3, 1048575, 0, 42⟩ (by decide)

/-- The forced-stage trial loop leaves the held frame untouched: it ends
with the staged replacement value `op df` and a record of `r` trial inputs,
each of them the held frame itself. -/
theorem stageLoop_spec (df : DataFrame) (op : DataFrame → DataFrame) :
    ∀ (r : Nat) (res : Option DataFrame) (inputs : List DataFrame),
      stageLoop df op r res inputs =
        ((if r = 0 then res else some (op df)), inputs ++ List.replicate r df) := by
  intro r
  induction r with
  | zero =>
    intro res inputs
    simp [stageLoop]
  | succ s ih =>
    intro res inputs
    simp only [stageLoop, DataFrame.clone]
    rw [ih]
    simp [List.replicate_succ, List.append_assoc, List.singleton_append]

/-- C9: in forced mode every trial of a stage operates on a clone of the
orchestrator's currently held frame: across `trials >= 1` trials all
recorded inputs are the very frame the previous stage materialized (so that
frame is left unchanged by the trials), and the replacement frame available
once the loop has returned is the stage operation applied to it — every
trial of the stage received an identical input dataset. -/
theorem forced_stage_identical_inputs (df : DataFrame) (op : DataFrame → DataFrame)
    (trials : Nat) (ht : 1 ≤ trials) :
    ((stageLoop df op trials none []).2).length = trials ∧
    (∀ input ∈ (stageLoop df op trials none []).2, input = df) ∧
    (stageLoop df op trials none []).1 = some (op df) := by
  rw [stageLoop_spec]
  have hnz : ¬ trials = 0 := by omega
  refine ⟨by simp, ?_, by simp [hnz]⟩
  intro input hin
  simp only [List.nil_append] at hin
  exact List.eq_of_mem_replicate hin

/-- Witness for C9: three sort-stage trials over the sample frame all
receive the sample frame itself, and the staged replacement is its sorted
copy. -/
theorem forced_stage_identical_inputs_witness :
    ((stageLoop sampleRows sortByValue 3 none []).2).length = 3 ∧
    (∀ input ∈ (stageLoop sampleRows sortByValue 3 none []).2, input = sampleRows) ∧
    (stageLoop sampleRows sortByValue 3 none []).1 = some (sortByValue sampleRows) :=
  forced_stage_identical_inputs sampleRows sortByValue 3 (by decide)

/-- C4: for the same dataset source and the same stage definitions, the
forced-mode final materialized result (load, sort, filter, group-aggregate
materialized separately) and the lazy-mode final materialized result (the
single composed plan) are equal — hence they agree on row count, on the
group-key column, and on both aggregate columns exactly (so within any
floating-point tolerance): the two execution strategies are semantically
equivalent. -/
theorem forced_lazy_equivalent (src : List Row) (dur : Nat → Nat) :
    ∃ forced trace,
      mainRun src dur = .ok (forced, lazy_pipeline.collect src, trace) ∧
      forced = lazy_pipeline.collect src ∧
      forced.length = (lazy_pipeline.collect src).length ∧
      forced.map AggRow.category = (lazy_pipeline.collect src).map AggRow.category ∧
      forced.map AggRow.id_mean = (lazy_pipeline.collect src).map AggRow.id_mean ∧
      forced.map AggRow.value_mean = (lazy_pipeline.collect src).map AggRow.value_mean :=
  ⟨lazy_pipeline.collect src, mainTrace, rfl, rfl, rfl, rfl, rfl, rfl⟩

/-- C6: the orchestrator `main` runs the forced stages in the fixed order load, sort,
filter, group-aggregate, each timed with trial count 3 and followed
immediately by a memory sample, then times the single composed lazy plan
with trial count 5 and samples memory exactly once after it, as the last
observable step. -/
theorem main_stage_order (src : List Row) (dur : Nat → Nat) :
    (∃ forced lazyResult, mainRun src dur = .ok (forced, lazyResult, mainTrace)) ∧
    trialEvents mainTrace =
      [("CSV Read & Load", 3), ("Sort", 3), ("Filter", 3),
       ("GroupBy + Aggregate", 3), ("Full Lazy Pipeline", 5)] ∧
    trialsSampled mainTrace = true ∧
    mainTrace.count (Event.memSample "Full Lazy Pipeline") = 1 ∧
    mainTrace.getLast? = some (.memSample "Full Lazy Pipeline") :=
  ⟨⟨lazy_pipeline.collect src, lazy_pipeline.collect src, rfl⟩,
   by decide, by decide, by decide, by decide⟩

/-- C8: on the five-row dataset with categories A, A, B, B, B and values
100, 600, 200, 700, 900, both the forced-mode result and the lazy-mode
result report exactly the aggregate set A ↦ 600, B ↦ 800 for the mean of
`value`. -/
theorem pipeline_sample_result :
    ∃ forced lazyResult trace,
      mainRun sampleRows (fun _ => 1) = .ok (forced, lazyResult, trace) ∧
      forced.map (fun r => (r.category, r.value_mean)) = [("A", 600), ("B", 800)] ∧
      lazyResult.map (fun r => (r.category, r.value_mean)) = [("A", 600), ("B", 800)] := by
  have hres : (lazy_pipeline.collect sampleRows).map (fun r => (r.category, r.value_mean)) =
      [("A", 600), ("B", 800)] := by
    have hd : (["A", "B", "B"] : List String).dedup = ["A", "B"] := by decide
    have hBA : (("B" : String) = "A") = False := eq_false (by decide)
    have hAB : (("A" : String) = "B") = False := eq_false (by decide)
    norm_num [AggPlan.collect, FramePlan.collect, lazy_pipeline, loadCsv,
      sortByValue, insertByValue, filterValueGt500, groupByAgg, qmean,
      sampleRows, List.filter_cons, List.filter_nil, List.foldr, hd, hBA, hAB,
      Function.comp, List.sum_cons, List.sum_nil]
  exact ⟨lazy_pipeline.collect sampleRows, lazy_pipeline.collect sampleRows, mainTrace,
    rfl, hres, hres⟩

end Bench
